import Mathlib

/-!
Verification development for the Orbit Navigation Engine: a shallow
embedding of the zustand session store (`useOrbitStore` in App.tsx),
the screen-level prefetch orchestration (OrbitScreen.tsx) and the
gesture recognizer (OrbitCardStack), with theorems settling the
specification claims about them.

Modelling conventions:
  - JavaScript numbers are modelled as `Int` where the source only ever
    stores integers (ids, timestamps, history indices) and as `Rat`
    where fractional values occur (similarity scores, pixel offsets,
    the swipe threshold factor 0.3).
  - `Date.now()` is an external input: operations that read it take an
    explicit `now : Int` parameter.
  - A JavaScript array access `a[i]` that can yield `undefined` (and
    hence a TypeError on member access) is modelled with `Option`;
    `goBack` returns `Option` because its body reads
    `state.history[newIndex].movie` without a range check beyond the
    `historyIndex <= 0` guard.
-/

set_option autoImplicit false

inductive SwipeDirection where
  | left
  | right
  | up
  | down
deriving DecidableEq, Repr

inductive ConnectionType where
  | vibe
  | aesthetic
  | auteur
  | entry
deriving DecidableEq, Repr

inductive MediaType where
  | movie
  | tv
deriving DecidableEq, Repr

structure OrbitMovie where
  id : Int
  title : String
  year : String
  posterPath : Option String
  backdropPath : Option String
  dominantHex : String
  mediaType : MediaType
  director : Option String
  cinematographer : Option String
  genres : Option (List String)
deriving DecidableEq, Repr

structure OrbitEdge where
  fromId : Int
  toId : Int
  connectionType : ConnectionType
  connectionReason : String
  similarityScore : Rat
deriving DecidableEq, Repr

structure OrbitNode where
  movie : OrbitMovie
  timestamp : Int
  saved : Bool
deriving DecidableEq, Repr

/-- A prefetched candidate: `{ movie, connectionReason, similarityScore }`. -/
structure Candidate where
  movie : OrbitMovie
  connectionReason : String
  similarityScore : Rat
deriving DecidableEq, Repr

/-- The `prefetchedMoves` record: one optional candidate per forward type. -/
structure PrefetchedMoves where
  vibe : Option Candidate
  aesthetic : Option Candidate
  auteur : Option Candidate
deriving DecidableEq, Repr

def PrefetchedMoves.empty : PrefetchedMoves :=
  { vibe := none, aesthetic := none, auteur := none }

/-- The session state held by `useOrbitStore` (the data fields of
`OrbitState` in App.tsx, the actions being modelled as functions below). -/
structure OrbitState where
  isActive : Bool
  entryMovie : Option OrbitMovie
  currentMovie : Option OrbitMovie
  history : List OrbitNode
  historyIndex : Int
  edges : List OrbitEdge
  isTransitioning : Bool
  showConstellation : Bool
  pendingDirection : Option SwipeDirection
  prefetchedMoves : PrefetchedMoves
deriving DecidableEq, Repr

/-- The `initialState` value from App.tsx; note `historyIndex` starts at `-1`. -/
def orbitInitialState : OrbitState :=
  { isActive := false
    entryMovie := none
    currentMovie := none
    history := []
    historyIndex := -1
    edges := []
    isTransitioning := false
    showConstellation := false
    pendingDirection := none
    prefetchedMoves := PrefetchedMoves.empty }

/-- JavaScript `array[i]` as an `Option`: `undefined` for a negative or
out-of-range index. -/
def jsIndex {α : Type} (l : List α) (i : Int) : Option α :=
  if i < 0 then none else l[i.toNat]?

/-- JavaScript `array.slice(0, e)`: a negative end counts from the end of
the array, and both directions clamp. -/
def jsSliceTo {α : Type} (l : List α) (e : Int) : List α :=
  if e < 0 then l.take ((l.length : Int) + e).toNat else l.take e.toNat

/-- The `directionToConnectionType` mapping from App.tsx; the `default` case of the
switch (reached only by `right`) yields `vibe`. -/
def directionToConnectionType (direction : SwipeDirection) : ConnectionType :=
  match direction with
  | .left => .vibe
  | .up => .auteur
  | .down => .aesthetic
  | _ => .vibe

/-- Action `enterOrbit(movie)`: activates the session with a fresh single-node
history.  The `set` call lists every field except `pendingDirection`,
which therefore keeps its previous value. -/
def enterOrbit (movie : OrbitMovie) (now : Int) (s : OrbitState) : OrbitState :=
  { s with
    isActive := true
    entryMovie := some movie
    currentMovie := some movie
    history := [{ movie := movie, timestamp := now, saved := false }]
    historyIndex := 0
    edges := []
    isTransitioning := false
    showConstellation := false
    prefetchedMoves := PrefetchedMoves.empty }

/-- Action `exitOrbit()`: `set(initialState)`. -/
def exitOrbit (_ : OrbitState) : OrbitState :=
  orbitInitialState

/-- Action `reset()`: `set(initialState)`. -/
def orbitReset (_ : OrbitState) : OrbitState :=
  orbitInitialState

/-- Action `navigateTo(movie, direction, connectionReason, similarityScore)`:
guarded only by `!state.currentMovie`; truncates the history to
`slice(0, historyIndex + 1)`, pushes the new node, appends one edge and
clears the transition flags and the prefetch cache. -/
def navigateTo (movie : OrbitMovie) (direction : SwipeDirection)
    (connectionReason : String) (similarityScore : Rat) (now : Int)
    (s : OrbitState) : OrbitState :=
  match s.currentMovie with
  | none => s
  | some cm =>
    let node : OrbitNode := { movie := movie, timestamp := now, saved := false }
    let edge : OrbitEdge :=
      { fromId := cm.id
        toId := movie.id
        connectionType := directionToConnectionType direction
        connectionReason := connectionReason
        similarityScore := similarityScore }
    let newHistory := jsSliceTo s.history (s.historyIndex + 1) ++ [node]
    { s with
      currentMovie := some movie
      history := newHistory
      historyIndex := (newHistory.length : Int) - 1
      edges := s.edges ++ [edge]
      isTransitioning := false
      pendingDirection := none
      prefetchedMoves := PrefetchedMoves.empty }

/-- Action `goBack()`: returns `false` untouched at the left edge, otherwise
steps the cursor back.  The body reads `state.history[newIndex].movie`;
`none` models the TypeError a JavaScript `undefined` access would raise
(unreachable from any reachable state, see the invariant below). -/
def goBack (s : OrbitState) : Option (Bool × OrbitState) :=
  if s.historyIndex ≤ 0 then some (false, s)
  else
    match jsIndex s.history (s.historyIndex - 1) with
    | none => none
    | some previousNode =>
      some (true,
        { s with
          currentMovie := some previousNode.movie
          historyIndex := s.historyIndex - 1
          isTransitioning := false
          pendingDirection := none })

/-- Action `jumpToNode(index)`: range-guarded; the inner `none` branch is dead
because the guard already ensures the index is in range. -/
def jumpToNode (index : Int) (s : OrbitState) : OrbitState :=
  if index < 0 ∨ (s.history.length : Int) ≤ index then s
  else
    match jsIndex s.history index with
    | none => s
    | some node =>
      { s with
        currentMovie := some node.movie
        historyIndex := index
        showConstellation := false
        isTransitioning := false }

/-- Action `toggleSaved(movieId)`: flips `saved` on every node whose movie id
matches. -/
def toggleSaved (movieId : Int) (s : OrbitState) : OrbitState :=
  { s with
    history := s.history.map fun node =>
      if node.movie.id = movieId then { node with saved := !node.saved } else node }

def setTransitioning (value : Bool) (s : OrbitState) : OrbitState :=
  { s with isTransitioning := value }

def setShowConstellation (value : Bool) (s : OrbitState) : OrbitState :=
  { s with showConstellation := value }

def setPendingDirection (direction : Option SwipeDirection) (s : OrbitState) : OrbitState :=
  { s with pendingDirection := direction }

/-- A `Partial` update of the prefetch record: `none` in a field models
the key being absent from the object passed to `setPrefetchedMoves`. -/
structure PartialMoves where
  vibe : Option (Option Candidate)
  aesthetic : Option (Option Candidate)
  auteur : Option (Option Candidate)
deriving DecidableEq, Repr

/-- Action `setPrefetchedMoves(moves)`: object-spread merge
`{ ...state.prefetchedMoves, ...moves }` — present keys overwrite,
absent keys keep the previous slot, with no staleness check of any
kind. -/
def setPrefetchedMoves (moves : PartialMoves) (s : OrbitState) : OrbitState :=
  { s with
    prefetchedMoves :=
      { vibe := moves.vibe.getD s.prefetchedMoves.vibe
        aesthetic := moves.aesthetic.getD s.prefetchedMoves.aesthetic
        auteur := moves.auteur.getD s.prefetchedMoves.auteur } }

/-- Action `getSavedMovies()`: the saved nodes in history order. -/
def getSavedMovies (s : OrbitState) : List OrbitNode :=
  s.history.filter fun node => node.saved

/-- A minimal concrete movie used by the concrete witnesses below. -/
def mkMovie (n : Int) : OrbitMovie :=
  { id := n
    title := "m"
    year := "2000"
    posterPath := none
    backdropPath := none
    dominantHex := "#000"
    mediaType := .movie
    director := none
    cinematographer := none
    genres := none }

/-! ## Gesture recognizer (OrbitCardStack) -/

/-- The `Math.abs` function on rationals, kept kernel-reducible. -/
def ratAbs (x : Rat) : Rat :=
  if x < 0 then -x else x

/-- The `Math.min` function on rationals, kept kernel-reducible. -/
def ratMin (x y : Rat) : Rat :=
  if x ≤ y then x else y

/-- The constant `SWIPE_THRESHOLD = 0.3` in OrbitCardStack. -/
def SWIPE_THRESHOLD : Rat := 3 / 10

/-- The gesture threshold `min(window.innerWidth, window.innerHeight) * SWIPE_THRESHOLD`. -/
def swipeThreshold (innerWidth innerHeight : Rat) : Rat :=
  ratMin innerWidth innerHeight * SWIPE_THRESHOLD

/-- The classifier `getSwipeDirection(offsetX, offsetY)` from OrbitCardStack: the
horizontal branch is taken only on a strict majority `|x| > |y|`; an
exact tie falls into the vertical branch. -/
def getSwipeDirection (innerWidth innerHeight offsetX offsetY : Rat) :
    Option SwipeDirection :=
  if ratAbs offsetX > ratAbs offsetY then
    if offsetX < -swipeThreshold innerWidth innerHeight then some .left
    else if offsetX > swipeThreshold innerWidth innerHeight then some .right
    else none
  else
    if offsetY < -swipeThreshold innerWidth innerHeight then some .up
    else if offsetY > swipeThreshold innerWidth innerHeight then some .down
    else none

/-- Discrete semantic events emitted by the gesture layer. -/
inductive GEvent where
  | longPress
  | swipe (d : SwipeDirection)
deriving DecidableEq, Repr

/-- Per-gesture recognizer state.  `timer = some captured` models a
scheduled `setTimeout` long-press callback; `captured` is the value of
the `isDragging` state variable that the callback closed over when
`handleDragStart` created it — `setIsDragging(true)` later in the same
handler rebinds the React state for the next render but cannot change
the value already captured by the scheduled closure. -/
structure GestureState where
  dragging : Bool
  timer : Option Bool
  emitted : List GEvent
deriving DecidableEq, Repr

def gestureInit : GestureState :=
  { dragging := false, timer := none, emitted := [] }

/-- External gesture inputs: pointer lifecycle callbacks (with the
cumulative `info.offset` for move/end) and the firing of a scheduled
long-press timeout. -/
inductive GInput where
  | dragStart
  | dragMove (dx dy : Rat)
  | timerFire
  | dragEnd (dx dy : Rat)
deriving DecidableEq, Repr

/-- One recognizer step, following `handleDragStart` / `handleDrag` /
`handleDragEnd` and the `setTimeout` callback in OrbitCardStack.
The browser delivers `dragStart` only when no drag is in progress and
`dragMove`/`dragEnd` only during one, and a cleared timeout never
fires; inputs violating that lifecycle are ignored.  `isTransitioning`
is the prop of the same name (dragging is disabled entirely while it is
set, and `handleDragEnd` rechecks it before emitting a swipe). -/
def gestureStep (innerWidth innerHeight : Rat) (isTransitioning : Bool)
    (s : GestureState) : GInput → GestureState
  | .dragStart =>
    if s.dragging then s
    else { s with dragging := true, timer := some s.dragging }
  | .dragMove dx dy =>
    if !s.dragging then s
    else if ratAbs dx > 20 ∨ ratAbs dy > 20 then { s with timer := none }
    else s
  | .timerFire =>
    match s.timer with
    | none => s
    | some captured =>
      { s with
        timer := none
        emitted := if captured then s.emitted ++ [.longPress] else s.emitted }
  | .dragEnd dx dy =>
    if !s.dragging then s
    else
      match getSwipeDirection innerWidth innerHeight dx dy with
      | some d =>
        if isTransitioning then
          { s with dragging := false, timer := none }
        else
          { s with
            dragging := false
            timer := none
            emitted := s.emitted ++ [.swipe d] }
      | none => { s with dragging := false, timer := none }

/-- Run the recognizer over a whole input sequence from the idle state. -/
def runGesture (innerWidth innerHeight : Rat) (isTransitioning : Bool)
    (inputs : List GInput) : GestureState :=
  inputs.foldl (gestureStep innerWidth innerHeight isTransitioning) gestureInit

/-! ## Screen-level prefetch orchestration (OrbitScreen) -/

/-- An outstanding three-way prefetch fan-out.  `forMovie` is ghost
bookkeeping recording which movie the fan-out was issued for; the
completion handler in OrbitScreen
(`prefetchNextMoves(...).then(moves => setPrefetchedMoves({...}))`)
carries no such tag and applies the payload unconditionally.
`payload` is the triple the external recommendation service will
eventually deliver. -/
structure FanoutRequest where
  forMovie : OrbitMovie
  payload : PrefetchedMoves
deriving DecidableEq, Repr

structure ScreenState where
  store : OrbitState
  pending : List FanoutRequest
deriving DecidableEq, Repr

def screenInit : ScreenState :=
  { store := orbitInitialState, pending := [] }

/-- Screen-level events.  `enter` is the tail of `initOrbit` (the
`enterOrbit` call followed by issuing a fan-out for the entry movie);
`swipeResolve` is a `handleSwipe` invocation whose recommendation
lookup (prefetched or fallback `getNextMovie`) resolved to candidate
`c`, followed by the `navigateTo` call and the fan-out issued for the
new movie; `complete i` is the settlement of the i-th outstanding
fan-out, whose `.then` handler calls `setPrefetchedMoves` with all
three keys present.  Swipe attempts whose lookup resolves to `null`
only reset the transition flags and are not needed by the claims
settled here. -/
inductive ScreenEvent where
  | enter (m : OrbitMovie) (now : Int) (payload : PrefetchedMoves)
  | swipeResolve (d : SwipeDirection) (c : Candidate) (now : Int)
      (payload : PrefetchedMoves)
  | complete (i : Nat)
deriving DecidableEq, Repr

def screenStep (ss : ScreenState) : ScreenEvent → ScreenState
  | .enter m now payload =>
    { store := enterOrbit m now ss.store
      pending := ss.pending ++ [{ forMovie := m, payload := payload }] }
  | .swipeResolve d c now payload =>
    if ss.store.currentMovie = none ∨ ss.store.isTransitioning then ss
    else if d = .right then
      match goBack ss.store with
      | some (_, s1) => { ss with store := s1 }
      | none => ss
    else
      let s1 := setPendingDirection (some d) (setTransitioning true ss.store)
      { store := navigateTo c.movie d c.connectionReason c.similarityScore now s1
        pending := ss.pending ++ [{ forMovie := c.movie, payload := payload }] }
  | .complete i =>
    match ss.pending[i]? with
    | none => ss
    | some req =>
      { store := setPrefetchedMoves
          { vibe := some req.payload.vibe
            aesthetic := some req.payload.aesthetic
            auteur := some req.payload.auteur } ss.store
        pending := ss.pending.eraseIdx i }

def runScreen (events : List ScreenEvent) : ScreenState :=
  events.foldl screenStep screenInit

/-! ## Reachability of session states -/

/-- The session states reachable through the store's command API: the
operations of the claims plus the UI-state setters. -/
inductive Reachable : OrbitState → Prop where
  | init : Reachable orbitInitialState
  | enter {s : OrbitState} (m : OrbitMovie) (now : Int) :
      Reachable s → Reachable (enterOrbit m now s)
  | exit {s : OrbitState} : Reachable s → Reachable (exitOrbit s)
  | resetStep {s : OrbitState} : Reachable s → Reachable (orbitReset s)
  | nav {s : OrbitState} (m : OrbitMovie) (d : SwipeDirection) (r : String)
      (sc : Rat) (now : Int) :
      Reachable s → Reachable (navigateTo m d r sc now s)
  | back {s s' : OrbitState} {b : Bool} :
      Reachable s → goBack s = some (b, s') → Reachable s'
  | jump {s : OrbitState} (i : Int) : Reachable s → Reachable (jumpToNode i s)
  | toggle {s : OrbitState} (movieId : Int) :
      Reachable s → Reachable (toggleSaved movieId s)
  | setT {s : OrbitState} (v : Bool) : Reachable s → Reachable (setTransitioning v s)
  | setSC {s : OrbitState} (v : Bool) :
      Reachable s → Reachable (setShowConstellation v s)
  | setPD {s : OrbitState} (d : Option SwipeDirection) :
      Reachable s → Reachable (setPendingDirection d s)
  | setPM {s : OrbitState} (moves : PartialMoves) :
      Reachable s → Reachable (setPrefetchedMoves moves s)

/-- The cursor is valid: the history node under `historyIndex` exists
and `currentMovie` is exactly its movie. -/
def CursorOk (s : OrbitState) : Prop :=
  ∃ n : OrbitNode,
    jsIndex s.history s.historyIndex = some n ∧ s.currentMovie = some n.movie

/-- The inductive session invariant: an inactive session has no current
movie and no history; an active one has a valid cursor. -/
def SessionInv (s : OrbitState) : Prop :=
  (s.isActive = false → s.currentMovie = none ∧ s.history = []) ∧
  (s.isActive = true → CursorOk s)

/-- Iterated `GoBack`, applied `k` times, each call required to succeed (return
`true`); `none` if any call fails or would raise. -/
def goBackIter : Nat → OrbitState → Option OrbitState
  | 0, s => some s
  | k + 1, s =>
    match goBack s with
    | some (true, s1) => goBackIter k s1
    | _ => none

/-! ## Concrete fixtures for witnesses and counterexamples -/

/-- A session freshly entered at movie 1. -/
def stateA : OrbitState := enterOrbit (mkMovie 1) 0 orbitInitialState

/-- State `stateA` after one successful left navigation to movie 2. -/
def stateAB : OrbitState := navigateTo (mkMovie 2) .left "r1" 80 1 stateA

/-- State `stateAB` after one successful `goBack` (cursor back on movie 1). -/
def stateABb : OrbitState :=
  (((goBack stateAB).map Prod.snd).getD orbitInitialState)

/-- The candidate consumed by the stale-prefetch scenario's swipe. -/
def candB : Candidate :=
  { movie := mkMovie 2, connectionReason := "r", similarityScore := 1 }

/-- A candidate produced by the fan-out issued for movie 1. -/
def staleCand : Candidate :=
  { movie := mkMovie 3, connectionReason := "stale", similarityScore := 1 }

def stalePayload : PrefetchedMoves :=
  { vibe := some staleCand, aesthetic := none, auteur := none }

/-- Enter at movie 1 (fan-out for movie 1 still outstanding), swipe left
to movie 2 (clearing the cache and issuing a fan-out for movie 2), then
let the fan-out for movie 1 settle. -/
def staleTrace : List ScreenEvent :=
  [.enter (mkMovie 1) 0 stalePayload,
   .swipeResolve .left candB 1 PrefetchedMoves.empty,
   .complete 0]

/-! ## Helper lemmas -/

theorem jsIndex_eq_some {α : Type} {l : List α} {i : Int} {a : α}
    (h : jsIndex l i = some a) :
    0 ≤ i ∧ i.toNat < l.length ∧ l[i.toNat]? = some a := by
  unfold jsIndex at h
  split at h
  · exact absurd h (by simp)
  · refine ⟨by omega, (List.getElem?_eq_some.mp h).1, h⟩

theorem jsIndex_nil {α : Type} (i : Int) : jsIndex ([] : List α) i = none := by
  unfold jsIndex
  split <;> simp

theorem jsSliceTo_of_nonneg {α : Type} (l : List α) {e : Int} (h : 0 ≤ e) :
    jsSliceTo l e = l.take e.toNat := by
  unfold jsSliceTo
  split
  · omega
  · rfl

theorem navigateTo_none {m : OrbitMovie} {d : SwipeDirection} {r : String}
    {sc : Rat} {now : Int} {s : OrbitState} (h : s.currentMovie = none) :
    navigateTo m d r sc now s = s := by
  unfold navigateTo
  rw [h]

theorem navigateTo_some {m : OrbitMovie} {d : SwipeDirection} {r : String}
    {sc : Rat} {now : Int} {s : OrbitState} {cm : OrbitMovie}
    (h : s.currentMovie = some cm) :
    navigateTo m d r sc now s =
      { s with
        currentMovie := some m
        history := jsSliceTo s.history (s.historyIndex + 1) ++
          [{ movie := m, timestamp := now, saved := false }]
        historyIndex :=
          ((jsSliceTo s.history (s.historyIndex + 1) ++
            [({ movie := m, timestamp := now, saved := false } : OrbitNode)]).length : Int) - 1
        edges := s.edges ++
          [{ fromId := cm.id
             toId := m.id
             connectionType := directionToConnectionType d
             connectionReason := r
             similarityScore := sc }]
        isTransitioning := false
        pendingDirection := none
        prefetchedMoves := PrefetchedMoves.empty } := by
  unfold navigateTo
  rw [h]


/-! ## The session invariant is inductive -/

theorem sessionInv_initial : SessionInv orbitInitialState := by
  constructor
  · intro _
    exact ⟨rfl, rfl⟩
  · intro h
    simp [orbitInitialState] at h

theorem sessionInv_enterOrbit (m : OrbitMovie) (now : Int) (s : OrbitState) :
    SessionInv (enterOrbit m now s) := by
  constructor
  · intro h
    simp [enterOrbit] at h
  · intro _
    exact ⟨{ movie := m, timestamp := now, saved := false }, rfl, rfl⟩

theorem sessionInv_active {s : OrbitState} {cm : OrbitMovie}
    (h : SessionInv s) (hc : s.currentMovie = some cm) : s.isActive = true := by
  cases hA : s.isActive
  · exact absurd ((h.1 hA).1.symm.trans hc) (by simp)
  · rfl

theorem sessionInv_navigateTo (m : OrbitMovie) (d : SwipeDirection) (r : String)
    (sc : Rat) (now : Int) {s : OrbitState} (h : SessionInv s) :
    SessionInv (navigateTo m d r sc now s) := by
  rcases hc : s.currentMovie with _ | cm
  · rw [navigateTo_none hc]
    exact h
  · have hact : s.isActive = true := sessionInv_active h hc
    obtain ⟨n, hn, _⟩ := h.2 hact
    obtain ⟨hi0, hilt, _⟩ := jsIndex_eq_some hn
    rw [navigateTo_some hc]
    constructor
    · intro hA
      simp only [hact] at hA
      cases hA
    · intro _
      have hslice : jsSliceTo s.history (s.historyIndex + 1) =
          s.history.take (s.historyIndex + 1).toNat :=
        jsSliceTo_of_nonneg s.history (by omega)
      have hlen : (s.history.take (s.historyIndex + 1).toNat).length =
          s.historyIndex.toNat + 1 := by
        rw [List.length_take]
        omega
      refine ⟨{ movie := m, timestamp := now, saved := false }, ?_, rfl⟩
      unfold jsIndex
      rw [hslice]
      split
      · rename_i hlt
        rw [List.length_append, hlen] at hlt
        simp at hlt
        omega
      · rw [List.length_append, hlen]
        have harith :
            ((s.historyIndex.toNat + 1 + 1 : Nat) : Int) - 1 =
              ((s.historyIndex.toNat + 1 : Nat) : Int) := by omega
        simp only [List.length_singleton, harith]
        rw [Int.toNat_ofNat]
        rw [show s.historyIndex.toNat + 1 =
          (s.history.take (s.historyIndex + 1).toNat).length from hlen.symm]
        exact List.getElem?_concat_length _ _

theorem sessionInv_goBack {s s' : OrbitState} {b : Bool}
    (h : SessionInv s) (hgb : goBack s = some (b, s')) : SessionInv s' := by
  unfold goBack at hgb
  split at hgb
  · cases hgb
    exact h
  · rename_i hgt
    rcases hj : jsIndex s.history (s.historyIndex - 1) with _ | node
    · rw [hj] at hgb
      cases hgb
    · rw [hj] at hgb
      cases hgb
      have hact : s.isActive = true := by
        cases hA : s.isActive
        · rw [(h.1 hA).2, jsIndex_nil] at hj
          cases hj
        · rfl
      constructor
      · intro hA
        simp only [hact] at hA
        cases hA
      · intro _
        exact ⟨node, hj, rfl⟩

theorem sessionInv_jumpToNode (i : Int) {s : OrbitState} (h : SessionInv s) :
    SessionInv (jumpToNode i s) := by
  unfold jumpToNode
  split
  · exact h
  · rename_i hin
    rcases hj : jsIndex s.history i with _ | node
    · exact h
    · have hact : s.isActive = true := by
        cases hA : s.isActive
        · rw [(h.1 hA).2, jsIndex_nil] at hj
          cases hj
        · rfl
      constructor
      · intro hA
        have hA2 : s.isActive = false := hA
        rw [hact] at hA2
        cases hA2
      · intro _
        exact ⟨node, hj, rfl⟩

theorem toggleSaved_node_movie (movieId : Int) (n : OrbitNode) :
    (if n.movie.id = movieId then { n with saved := !n.saved } else n).movie
      = n.movie := by
  split <;> rfl

theorem sessionInv_toggleSaved (movieId : Int) {s : OrbitState}
    (h : SessionInv s) : SessionInv (toggleSaved movieId s) := by
  constructor
  · intro hA
    refine ⟨(h.1 hA).1, ?_⟩
    show s.history.map _ = []
    rw [(h.1 hA).2]
    rfl
  · intro hA
    obtain ⟨n, hn, hcm⟩ := h.2 hA
    obtain ⟨hi0, _, hget⟩ := jsIndex_eq_some hn
    refine ⟨if n.movie.id = movieId then { n with saved := !n.saved } else n, ?_, ?_⟩
    · show jsIndex (s.history.map _) s.historyIndex = _
      unfold jsIndex
      split
      · omega
      · rw [List.getElem?_map, hget]
        rfl
    · rw [toggleSaved_node_movie]
      exact hcm

theorem reachable_inv {s : OrbitState} (h : Reachable s) : SessionInv s := by
  induction h with
  | init => exact sessionInv_initial
  | enter m now _ _ => exact sessionInv_enterOrbit m now _
  | exit _ _ => exact sessionInv_initial
  | resetStep _ _ => exact sessionInv_initial
  | nav m d r sc now _ ih => exact sessionInv_navigateTo m d r sc now ih
  | back _ hgb ih => exact sessionInv_goBack ih hgb
  | jump i _ ih => exact sessionInv_jumpToNode i ih
  | toggle movieId _ ih => exact sessionInv_toggleSaved movieId ih
  | setT v _ ih => exact ih
  | setSC v _ ih => exact ih
  | setPD d _ ih => exact ih
  | setPM moves _ ih => exact ih

/-! ## Claim theorems -/

/-- C1: in every session state reachable by any sequence of `enterOrbit`,
`navigateTo`, `goBack`, `jumpToNode`, `toggleSaved`, `exitOrbit` /
`reset` and the UI-state setters, whenever `isActive` is true the
cursor satisfies `0 <= historyIndex < len(history)`, the node under the
cursor carries the current movie's id, and the history is non-empty. -/
theorem C1_active_session_invariant {s : OrbitState} (hs : Reachable s)
    (hact : s.isActive = true) :
    0 ≤ s.historyIndex ∧ s.historyIndex < (s.history.length : Int) ∧
    (∃ n cm, jsIndex s.history s.historyIndex = some n ∧
      s.currentMovie = some cm ∧ n.movie.id = cm.id) ∧
    s.history ≠ [] := by
  obtain ⟨n, hn, hcm⟩ := (reachable_inv hs).2 hact
  obtain ⟨h0, hlt, _⟩ := jsIndex_eq_some hn
  refine ⟨h0, by omega, ⟨n, n.movie, hn, hcm, rfl⟩, ?_⟩
  intro hnil
  rw [hnil] at hlt
  simp at hlt

/-- Witness for C1 at the concrete reachable state `stateA`. -/
theorem C1_active_session_invariant_witness :
    0 ≤ stateA.historyIndex ∧
    stateA.historyIndex < (stateA.history.length : Int) ∧
    (∃ n cm, jsIndex stateA.history stateA.historyIndex = some n ∧
      stateA.currentMovie = some cm ∧ n.movie.id = cm.id) ∧
    stateA.history ≠ [] :=
  C1_active_session_invariant (Reachable.enter (mkMovie 1) 0 Reachable.init) rfl

/-- C9: `toggleSaved(movieId)` flips `saved` on every history node whose
movie id matches (all occurrences at once), keeps each node's movie and
timestamp and the list's length and order, and changes no other session
field. -/
theorem C9_toggleSaved_flips_every_occurrence (s : OrbitState) (movieId : Int) :
    (∀ j : Nat, (toggleSaved movieId s).history[j]? =
      (s.history[j]?).map fun n =>
        { n with saved := if n.movie.id = movieId then !n.saved else n.saved }) ∧
    (toggleSaved movieId s).history.length = s.history.length ∧
    (toggleSaved movieId s).isActive = s.isActive ∧
    (toggleSaved movieId s).entryMovie = s.entryMovie ∧
    (toggleSaved movieId s).currentMovie = s.currentMovie ∧
    (toggleSaved movieId s).historyIndex = s.historyIndex ∧
    (toggleSaved movieId s).edges = s.edges ∧
    (toggleSaved movieId s).isTransitioning = s.isTransitioning ∧
    (toggleSaved movieId s).showConstellation = s.showConstellation ∧
    (toggleSaved movieId s).pendingDirection = s.pendingDirection ∧
    (toggleSaved movieId s).prefetchedMoves = s.prefetchedMoves := by
  refine ⟨?_, ?_, rfl, rfl, rfl, rfl, rfl, rfl, rfl, rfl, rfl⟩
  · intro j
    show (s.history.map _)[j]? = _
    rw [List.getElem?_map]
    rcases s.history[j]? with _ | n
    · rfl
    · show some _ = some _
      congr 1
      show (if n.movie.id = movieId then _ else _) = _
      split
      · next hid => simp only [if_pos hid]
      · next hid => simp only [if_neg hid]
  · exact List.length_map s.history _

/-- C10: `enterOrbit` reinitializes the whole session — entry and current
movie, single-node history, cursor 0, empty edges, cleared flags and
prefetch slots — but omits `pendingDirection` from the update, so that
field survives from before. -/
theorem C10_enterOrbit_keeps_pendingDirection (s : OrbitState)
    (m : OrbitMovie) (now : Int) :
    (enterOrbit m now s).pendingDirection = s.pendingDirection ∧
    (enterOrbit m now s).isActive = true ∧
    (enterOrbit m now s).entryMovie = some m ∧
    (enterOrbit m now s).currentMovie = some m ∧
    (enterOrbit m now s).history =
      [{ movie := m, timestamp := now, saved := false }] ∧
    (enterOrbit m now s).historyIndex = 0 ∧
    (enterOrbit m now s).edges = [] ∧
    (enterOrbit m now s).isTransitioning = false ∧
    (enterOrbit m now s).showConstellation = false ∧
    (enterOrbit m now s).prefetchedMoves = PrefetchedMoves.empty :=
  ⟨rfl, rfl, rfl, rfl, rfl, rfl, rfl, rfl, rfl, rfl⟩

/-- C2 counterexample: `navigateTo` with direction `right` is not a
no-op — from the freshly entered session it performs a full navigation
(the code has no `direction == right` guard; only `currentMovie` is
checked), so the claim that it leaves every field unchanged is false. -/
theorem C2_counterexample :
    navigateTo (mkMovie 2) .right "r" 1 1 stateA ≠ stateA ∧
    (navigateTo (mkMovie 2) .right "r" 1 1 stateA).history.length = 2 ∧
    (navigateTo (mkMovie 2) .right "r" 1 1 stateA).edges.length = 1 := by
  refine ⟨?_, by decide, by decide⟩
  intro h
  have : (navigateTo (mkMovie 2) .right "r" 1 1 stateA).history.length =
      stateA.history.length := by rw [h]
  revert this
  decide

/-- C2 amended: `goBack` at index 0, `navigateTo` with no current movie,
and `jumpToNode` out of range really are exception-free no-ops that
signal only through their ordinary return value; but `navigateTo` with
direction `right` is not rejected — it behaves exactly like a left
navigation (the mapping's default sends `right` to `vibe`). -/
theorem C2_invalid_commands (s : OrbitState) (m : OrbitMovie) (r : String)
    (sc : Rat) (now : Int) (i : Int) :
    (s.historyIndex = 0 → goBack s = some (false, s)) ∧
    (s.currentMovie = none → ∀ d, navigateTo m d r sc now s = s) ∧
    ((i < 0 ∨ (s.history.length : Int) ≤ i) → jumpToNode i s = s) ∧
    navigateTo m .right r sc now s = navigateTo m .left r sc now s := by
  refine ⟨?_, ?_, ?_, ?_⟩
  · intro h
    unfold goBack
    rw [if_pos (by omega)]
  · intro h d
    exact navigateTo_none h
  · intro h
    unfold jumpToNode
    rw [if_pos h]
  · rcases hc : s.currentMovie with _ | cm
    · rw [navigateTo_none hc, navigateTo_none hc]
    · rw [navigateTo_some hc, navigateTo_some hc]
      rfl

/-- Witness for C2's amended theorem: each invalid command discharged at
a concrete state. -/
theorem C2_invalid_commands_witness :
    goBack stateA = some (false, stateA) ∧
    navigateTo (mkMovie 2) .left "r" 1 1 orbitInitialState = orbitInitialState ∧
    jumpToNode 5 stateA = stateA :=
  ⟨(C2_invalid_commands stateA (mkMovie 2) "r" 1 1 5).1 rfl,
   (C2_invalid_commands orbitInitialState (mkMovie 2) "r" 1 1 5).2.1 rfl .left,
   (C2_invalid_commands stateA (mkMovie 2) "r" 1 1 5).2.2.1 (Or.inr (by decide))⟩

/-- C8 counterexample: `jumpToNode` does not clear `pendingDirection` —
the `set` call omits it — so after jumping to the in-range index 0 a
pending left direction survives, refuting the claimed
`pendingDirection = None`. -/
theorem C8_counterexample :
    (jumpToNode 0 (setPendingDirection (some .left) stateA)).pendingDirection
      = some .left ∧
    (0 : Int) <
      ((setPendingDirection (some .left) stateA).history.length : Int) := by
  constructor
  · decide
  · decide

/-- C8 amended: for an in-range index, `jumpToNode` sets the cursor and
the current movie, closes the constellation view and clears
`isTransitioning`, touches no node or edge — but leaves
`pendingDirection` unchanged rather than clearing it. -/
theorem C8_jumpToNode_in_range (s : OrbitState) (i : Int)
    (h0 : 0 ≤ i) (hlt : i < (s.history.length : Int)) :
    (jumpToNode i s).historyIndex = i ∧
    (∃ n, jsIndex s.history i = some n ∧
      (jumpToNode i s).currentMovie = some n.movie) ∧
    (jumpToNode i s).showConstellation = false ∧
    (jumpToNode i s).isTransitioning = false ∧
    (jumpToNode i s).pendingDirection = s.pendingDirection ∧
    (jumpToNode i s).history = s.history ∧
    (jumpToNode i s).edges = s.edges ∧
    (jumpToNode i s).isActive = s.isActive ∧
    (jumpToNode i s).entryMovie = s.entryMovie ∧
    (jumpToNode i s).prefetchedMoves = s.prefetchedMoves := by
  have hnat : i.toNat < s.history.length := by omega
  have hj : jsIndex s.history i = some (s.history[i.toNat]) := by
    unfold jsIndex
    rw [if_neg (by omega)]
    exact List.getElem?_eq_getElem hnat
  unfold jumpToNode
  rw [if_neg (by omega), hj]
  exact ⟨rfl, ⟨s.history[i.toNat], rfl, rfl⟩, rfl, rfl, rfl, rfl, rfl, rfl, rfl, rfl⟩

/-- Witness for C8's amended theorem at index 0 of a two-node history
with a pending direction set. -/
theorem C8_jumpToNode_in_range_witness :
    (jumpToNode 0 (setPendingDirection (some .left) stateAB)).historyIndex = 0 ∧
    (∃ n, jsIndex (setPendingDirection (some .left) stateAB).history 0 = some n ∧
      (jumpToNode 0 (setPendingDirection (some .left) stateAB)).currentMovie
        = some n.movie) ∧
    (jumpToNode 0 (setPendingDirection (some .left) stateAB)).showConstellation
      = false ∧
    (jumpToNode 0 (setPendingDirection (some .left) stateAB)).isTransitioning
      = false ∧
    (jumpToNode 0 (setPendingDirection (some .left) stateAB)).pendingDirection
      = (setPendingDirection (some .left) stateAB).pendingDirection ∧
    (jumpToNode 0 (setPendingDirection (some .left) stateAB)).history
      = (setPendingDirection (some .left) stateAB).history ∧
    (jumpToNode 0 (setPendingDirection (some .left) stateAB)).edges
      = (setPendingDirection (some .left) stateAB).edges ∧
    (jumpToNode 0 (setPendingDirection (some .left) stateAB)).isActive
      = (setPendingDirection (some .left) stateAB).isActive ∧
    (jumpToNode 0 (setPendingDirection (some .left) stateAB)).entryMovie
      = (setPendingDirection (some .left) stateAB).entryMovie ∧
    (jumpToNode 0 (setPendingDirection (some .left) stateAB)).prefetchedMoves
      = (setPendingDirection (some .left) stateAB).prefetchedMoves :=
  C8_jumpToNode_in_range (setPendingDirection (some .left) stateAB) 0
    (by decide) (by decide)

/-- A successful `goBack` changes only the cursor, the current movie and
the transition flags. -/
theorem goBack_fields {s s' : OrbitState} {b : Bool}
    (h : goBack s = some (b, s')) :
    s'.isActive = s.isActive ∧ s'.history = s.history ∧ s'.edges = s.edges := by
  unfold goBack at h
  split at h
  · cases h
    exact ⟨rfl, rfl, rfl⟩
  · rcases hj : jsIndex s.history (s.historyIndex - 1) with _ | node
    · rw [hj] at h
      cases h
    · rw [hj] at h
      cases h
      exact ⟨rfl, rfl, rfl⟩

theorem goBackIter_reachable {k : Nat} {s s' : OrbitState}
    (hs : Reachable s) (hit : goBackIter k s = some s') :
    Reachable s' ∧ s'.isActive = s.isActive := by
  induction k generalizing s with
  | zero =>
    cases hit
    exact ⟨hs, rfl⟩
  | succ k ih =>
    unfold goBackIter at hit
    rcases hg : goBack s with _ | p
    · rw [hg] at hit
      cases hit
    · rcases p with ⟨b, s1⟩
      rcases b with _ | _
      · rw [hg] at hit
        cases hit
      · rw [hg] at hit
        obtain ⟨hr, ha⟩ := ih (Reachable.back hs hg) hit
        exact ⟨hr, ha.trans (goBack_fields hg).1⟩

/-- C4: every successful `navigateTo` appends exactly one edge, from the
old current movie to the new one, typed by the mapping left→vibe,
up→auteur, down→aesthetic; `goBack` and `jumpToNode` never add or remove
edges; and the edge list never shrinks. -/
theorem C4_edge_accumulation (s : OrbitState) (m : OrbitMovie)
    (d : SwipeDirection) (r : String) (sc : Rat) (now : Int) (i : Int) :
    (∀ cm, s.currentMovie = some cm →
      (navigateTo m d r sc now s).edges = s.edges ++
        [{ fromId := cm.id, toId := m.id,
           connectionType := directionToConnectionType d,
           connectionReason := r, similarityScore := sc }]) ∧
    directionToConnectionType .left = .vibe ∧
    directionToConnectionType .up = .auteur ∧
    directionToConnectionType .down = .aesthetic ∧
    (∀ b s', goBack s = some (b, s') → s'.edges = s.edges) ∧
    (jumpToNode i s).edges = s.edges ∧
    s.edges.length ≤ (navigateTo m d r sc now s).edges.length := by
  refine ⟨?_, rfl, rfl, rfl, ?_, ?_, ?_⟩
  · intro cm hc
    rw [navigateTo_some hc]
  · intro b s' h
    exact (goBack_fields h).2.2
  · unfold jumpToNode
    split
    · rfl
    · rcases hj : jsIndex s.history i with _ | node
      · rfl
      · rfl
  · rcases hc : s.currentMovie with _ | cm
    · rw [navigateTo_none hc]
    · rw [navigateTo_some hc]
      simp

/-- Witness for C4 at the concrete state `stateA`. -/
theorem C4_edge_accumulation_witness :
    (navigateTo (mkMovie 2) .left "r" 1 1 stateA).edges = stateA.edges ++
      [{ fromId := (mkMovie 1).id, toId := (mkMovie 2).id,
         connectionType := directionToConnectionType .left,
         connectionReason := "r", similarityScore := 1 }] ∧
    stateA.edges = stateA.edges :=
  ⟨(C4_edge_accumulation stateA (mkMovie 2) .left "r" 1 1 0).1 (mkMovie 1) rfl,
   ((C4_edge_accumulation stateA (mkMovie 2) .left "r" 1 1 0).2.2.2.2.1
      false stateA rfl).symm.trans
     ((C4_edge_accumulation stateA (mkMovie 2) .left "r" 1 1 0).2.2.2.2.1
        false stateA rfl)⟩

/-- C3: from any reachable active session, after `goBack` succeeds `k`
times, a successful `navigateTo` makes the new history the old history
up to the pre-navigate cursor followed by the single new node: its
length is the pre-navigate cursor plus two, everything after the cursor
is discarded, and the new cursor is the last position. -/
theorem C3_branch_truncation (s s' : OrbitState) (k : Nat)
    (hs : Reachable s) (hact : s.isActive = true)
    (hit : goBackIter k s = some s')
    (m : OrbitMovie) (d : SwipeDirection) (r : String) (sc : Rat) (now : Int) :
    (navigateTo m d r sc now s').history =
      s'.history.take (s'.historyIndex + 1).toNat ++
        [{ movie := m, timestamp := now, saved := false }] ∧
    ((navigateTo m d r sc now s').history.length : Int) = s'.historyIndex + 2 ∧
    (navigateTo m d r sc now s').historyIndex =
      ((navigateTo m d r sc now s').history.length : Int) - 1 := by
  obtain ⟨hr', hact'⟩ := goBackIter_reachable hs hit
  rw [hact] at hact'
  obtain ⟨n, hn, hcm⟩ := (reachable_inv hr').2 hact'
  obtain ⟨h0, hlt, _⟩ := jsIndex_eq_some hn
  have hslice : jsSliceTo s'.history (s'.historyIndex + 1) =
      s'.history.take (s'.historyIndex + 1).toNat :=
    jsSliceTo_of_nonneg s'.history (by omega)
  have hhist : (navigateTo m d r sc now s').history =
      s'.history.take (s'.historyIndex + 1).toNat ++
        [{ movie := m, timestamp := now, saved := false }] := by
    rw [navigateTo_some hcm, hslice]
  refine ⟨hhist, ?_, ?_⟩
  · have hlen := congrArg List.length hhist
    rw [List.length_append, List.length_take] at hlen
    simp only [List.length_singleton] at hlen
    rw [hlen]
    omega
  · rw [navigateTo_some hcm]

/-- Witness for C3: enter at movie 1, navigate to movie 2, `goBack` once
(`k = 1`), then navigate to movie 3. -/
theorem C3_branch_truncation_witness :
    (navigateTo (mkMovie 3) .up "r2" 70 2 stateABb).history =
      stateABb.history.take (stateABb.historyIndex + 1).toNat ++
        [{ movie := mkMovie 3, timestamp := 2, saved := false }] ∧
    ((navigateTo (mkMovie 3) .up "r2" 70 2 stateABb).history.length : Int) =
      stateABb.historyIndex + 2 ∧
    (navigateTo (mkMovie 3) .up "r2" 70 2 stateABb).historyIndex =
      ((navigateTo (mkMovie 3) .up "r2" 70 2 stateABb).history.length : Int) - 1 :=
  C3_branch_truncation stateAB stateABb 1
    (Reachable.nav (mkMovie 2) .left "r1" 80 1
      (Reachable.enter (mkMovie 1) 0 Reachable.init))
    rfl (by decide) (mkMovie 3) .up "r2" 70 2

/-- C5 counterexample: running `staleTrace` — enter at movie 1, navigate
to movie 2 (which clears the cache and issues a new fan-out), then let
the fan-out issued for movie 1 settle — leaves the candidate fetched for
movie 1 sitting in the cache while movie 2 is current.  The completion
is applied, not discarded: no request carries an epoch and the handler
checks nothing. -/
theorem C5_counterexample :
    (runScreen (staleTrace.take 2)).pending[0]? =
      some { forMovie := mkMovie 1, payload := stalePayload } ∧
    (runScreen (staleTrace.take 2)).store.currentMovie = some (mkMovie 2) ∧
    (runScreen staleTrace).store.currentMovie = some (mkMovie 2) ∧
    (runScreen staleTrace).store.prefetchedMoves.vibe = some staleCand ∧
    staleCand.movie ≠ mkMovie 2 := by
  refine ⟨?_, ?_, ?_, ?_, ?_⟩ <;> decide

/-- C5 amended: a successful `navigateTo` does clear all three prefetch
slots before the new fan-out is issued, but outstanding fan-out results
carry no epoch or movie tag: a completion is written into the cache
unconditionally, whatever movie its fan-out was issued for. -/
theorem C5_clear_but_untagged :
    (∀ (s : OrbitState) (m : OrbitMovie) (d : SwipeDirection) (r : String)
        (sc : Rat) (now : Int) (cm : OrbitMovie), s.currentMovie = some cm →
      (navigateTo m d r sc now s).prefetchedMoves = PrefetchedMoves.empty) ∧
    (∀ (ss : ScreenState) (i : Nat) (req : FanoutRequest),
      ss.pending[i]? = some req →
      (screenStep ss (.complete i)).store.prefetchedMoves = req.payload) := by
  constructor
  · intro s m d r sc now cm hc
    rw [navigateTo_some hc]
  · intro ss i req h
    show (match ss.pending[i]? with
      | none => ss
      | some req =>
        { store := setPrefetchedMoves
            { vibe := some req.payload.vibe
              aesthetic := some req.payload.aesthetic
              auteur := some req.payload.auteur } ss.store
          pending := ss.pending.eraseIdx i } : ScreenState).store.prefetchedMoves
      = req.payload
    rw [h]
    rfl


/-- Witness for C5's amended theorem: the clearing conjunct at `stateA`
navigating to movie 2, and the unconditional-write conjunct at the stale
completion from `staleTrace`. -/
theorem C5_clear_but_untagged_witness :
    (navigateTo (mkMovie 2) .left "r" 1 1 stateA).prefetchedMoves =
      PrefetchedMoves.empty ∧
    (screenStep (runScreen (staleTrace.take 2)) (.complete 0)).store.prefetchedMoves
      = stalePayload :=
  ⟨C5_clear_but_untagged.1 stateA (mkMovie 2) .left "r" 1 1 (mkMovie 1) rfl,
   C5_clear_but_untagged.2 (runScreen (staleTrace.take 2)) 0
     { forMovie := mkMovie 1, payload := stalePayload } (by decide)⟩

/-- Characterization of the `left` result of the swipe classifier. -/
theorem gsd_left_char (w h dx dy : Rat) :
    getSwipeDirection w h dx dy = some .left ↔
      ratAbs dy < ratAbs dx ∧ dx < -swipeThreshold w h := by
  unfold getSwipeDirection
  by_cases h1 : ratAbs dx > ratAbs dy
  · rw [if_pos h1]
    by_cases h2 : dx < -swipeThreshold w h
    · rw [if_pos h2]
      exact ⟨fun _ => ⟨h1, h2⟩, fun _ => rfl⟩
    · rw [if_neg h2]
      by_cases h3 : dx > swipeThreshold w h
      · rw [if_pos h3]
        constructor
        · intro hx
          simp at hx
        · rintro ⟨_, hlt⟩
          exact absurd hlt h2
      · rw [if_neg h3]
        constructor
        · intro hx
          simp at hx
        · rintro ⟨_, hlt⟩
          exact absurd hlt h2
  · rw [if_neg h1]
    constructor
    · intro hx
      by_cases h4 : dy < -swipeThreshold w h
      · rw [if_pos h4] at hx
        simp at hx
      · rw [if_neg h4] at hx
        by_cases h5 : dy > swipeThreshold w h
        · rw [if_pos h5] at hx
          simp at hx
        · rw [if_neg h5] at hx
          simp at hx
    · rintro ⟨habs, _⟩
      exact absurd habs h1

/-- Characterization of the `right` result of the swipe classifier. -/
theorem gsd_right_char (w h dx dy : Rat) (ht : 0 ≤ swipeThreshold w h) :
    getSwipeDirection w h dx dy = some .right ↔
      ratAbs dy < ratAbs dx ∧ swipeThreshold w h < dx := by
  unfold getSwipeDirection
  by_cases h1 : ratAbs dx > ratAbs dy
  · rw [if_pos h1]
    by_cases h2 : dx < -swipeThreshold w h
    · rw [if_pos h2]
      constructor
      · intro hx
        simp at hx
      · rintro ⟨_, hgt⟩
        exfalso
        linarith
    · rw [if_neg h2]
      by_cases h3 : dx > swipeThreshold w h
      · rw [if_pos h3]
        exact ⟨fun _ => ⟨h1, h3⟩, fun _ => rfl⟩
      · rw [if_neg h3]
        constructor
        · intro hx
          simp at hx
        · rintro ⟨_, hgt⟩
          exact absurd hgt h3
  · rw [if_neg h1]
    constructor
    · intro hx
      by_cases h4 : dy < -swipeThreshold w h
      · rw [if_pos h4] at hx
        simp at hx
      · rw [if_neg h4] at hx
        by_cases h5 : dy > swipeThreshold w h
        · rw [if_pos h5] at hx
          simp at hx
        · rw [if_neg h5] at hx
          simp at hx
    · rintro ⟨habs, _⟩
      exact absurd habs h1

/-- Characterization of the `up` result of the swipe classifier. -/
theorem gsd_up_char (w h dx dy : Rat) :
    getSwipeDirection w h dx dy = some .up ↔
      ratAbs dx ≤ ratAbs dy ∧ dy < -swipeThreshold w h := by
  unfold getSwipeDirection
  by_cases h1 : ratAbs dx > ratAbs dy
  · rw [if_pos h1]
    constructor
    · intro hx
      by_cases h2 : dx < -swipeThreshold w h
      · rw [if_pos h2] at hx
        simp at hx
      · rw [if_neg h2] at hx
        by_cases h3 : dx > swipeThreshold w h
        · rw [if_pos h3] at hx
          simp at hx
        · rw [if_neg h3] at hx
          simp at hx
    · rintro ⟨hle, _⟩
      exfalso
      exact absurd h1 (not_lt.mpr hle)
  · rw [if_neg h1]
    by_cases h4 : dy < -swipeThreshold w h
    · rw [if_pos h4]
      exact ⟨fun _ => ⟨le_of_not_lt h1, h4⟩, fun _ => rfl⟩
    · rw [if_neg h4]
      by_cases h5 : dy > swipeThreshold w h
      · rw [if_pos h5]
        constructor
        · intro hx
          simp at hx
        · rintro ⟨_, hlt⟩
          exact absurd hlt h4
      · rw [if_neg h5]
        constructor
        · intro hx
          simp at hx
        · rintro ⟨_, hlt⟩
          exact absurd hlt h4

/-- Characterization of the `down` result of the swipe classifier. -/
theorem gsd_down_char (w h dx dy : Rat) (ht : 0 ≤ swipeThreshold w h) :
    getSwipeDirection w h dx dy = some .down ↔
      ratAbs dx ≤ ratAbs dy ∧ swipeThreshold w h < dy := by
  unfold getSwipeDirection
  by_cases h1 : ratAbs dx > ratAbs dy
  · rw [if_pos h1]
    constructor
    · intro hx
      by_cases h2 : dx < -swipeThreshold w h
      · rw [if_pos h2] at hx
        simp at hx
      · rw [if_neg h2] at hx
        by_cases h3 : dx > swipeThreshold w h
        · rw [if_pos h3] at hx
          simp at hx
        · rw [if_neg h3] at hx
          simp at hx
    · rintro ⟨hle, _⟩
      exact absurd h1 (not_lt.mpr hle)
  · rw [if_neg h1]
    by_cases h4 : dy < -swipeThreshold w h
    · rw [if_pos h4]
      constructor
      · intro hx
        simp at hx
      · rintro ⟨_, hgt⟩
        exfalso
        linarith
    · rw [if_neg h4]
      by_cases h5 : dy > swipeThreshold w h
      · rw [if_pos h5]
        exact ⟨fun _ => ⟨le_of_not_lt h1, h5⟩, fun _ => rfl⟩
      · rw [if_neg h5]
        constructor
        · intro hx
          simp at hx
        · rintro ⟨_, hgt⟩
          exact absurd hgt h5

/-- The threshold is non-negative for a non-negative viewport. -/
theorem swipeThreshold_nonneg {w h : Rat} (hw : 0 ≤ w) (hh : 0 ≤ h) :
    0 ≤ swipeThreshold w h := by
  unfold swipeThreshold ratMin SWIPE_THRESHOLD
  split
  · exact mul_nonneg hw (by norm_num)
  · exact mul_nonneg hh (by norm_num)

/-- C6 counterexample: at a 100×100 viewport (threshold 30) the
above-threshold exact diagonal tie (40, 40) is classified `down`, not
`right`: the code's strict comparison sends magnitude ties to the
vertical branch, refuting the claim that the horizontal axis wins
ties. -/
theorem C6_counterexample :
    getSwipeDirection 100 100 40 40 = some .down ∧
    getSwipeDirection 100 100 40 40 ≠ some .right := by
  have hd : getSwipeDirection 100 100 40 40 = some .down := by
    unfold getSwipeDirection swipeThreshold SWIPE_THRESHOLD ratMin ratAbs
    norm_num
  refine ⟨hd, ?_⟩
  rw [hd]
  simp

/-- C6 amended: with `threshold = min(w, h) * 0.3`, the classifier
returns `left`/`right` exactly when `|dx|` strictly exceeds `|dy|` and
`dx` crosses the threshold, and `up`/`down` exactly when `|dy|` is
greater than or equal to `|dx|` (the vertical axis wins exact magnitude
ties) and `dy` crosses the threshold. -/
theorem C6_swipe_classifier (w h dx dy : Rat) (hw : 0 ≤ w) (hh : 0 ≤ h) :
    (getSwipeDirection w h dx dy = some .left ↔
      ratAbs dy < ratAbs dx ∧ dx < -swipeThreshold w h) ∧
    (getSwipeDirection w h dx dy = some .right ↔
      ratAbs dy < ratAbs dx ∧ swipeThreshold w h < dx) ∧
    (getSwipeDirection w h dx dy = some .up ↔
      ratAbs dx ≤ ratAbs dy ∧ dy < -swipeThreshold w h) ∧
    (getSwipeDirection w h dx dy = some .down ↔
      ratAbs dx ≤ ratAbs dy ∧ swipeThreshold w h < dy) :=
  ⟨gsd_left_char w h dx dy,
   gsd_right_char w h dx dy (swipeThreshold_nonneg hw hh),
   gsd_up_char w h dx dy,
   gsd_down_char w h dx dy (swipeThreshold_nonneg hw hh)⟩

/-- Witness for C6's amended theorem at a concrete offset. -/
theorem C6_swipe_classifier_witness :
    (getSwipeDirection 100 100 (-40) 20 = some .left ↔
      ratAbs 20 < ratAbs (-40) ∧ (-40 : Rat) < -swipeThreshold 100 100) ∧
    (getSwipeDirection 100 100 (-40) 20 = some .right ↔
      ratAbs 20 < ratAbs (-40) ∧ swipeThreshold 100 100 < (-40 : Rat)) ∧
    (getSwipeDirection 100 100 (-40) 20 = some .up ↔
      ratAbs (-40) ≤ ratAbs 20 ∧ (20 : Rat) < -swipeThreshold 100 100) ∧
    (getSwipeDirection 100 100 (-40) 20 = some .down ↔
      ratAbs (-40) ≤ ratAbs 20 ∧ swipeThreshold 100 100 < (20 : Rat)) :=
  C6_swipe_classifier 100 100 (-40) 20 (by decide) (by decide)

/-- One recognizer step preserves: no scheduled timer captured a true
`isDragging`, and no LongPress has been emitted. -/
theorem gestureStep_inv (w h : Rat) (tr : Bool) (s : GestureState) (inp : GInput)
    (hs : s.timer ≠ some true ∧ GEvent.longPress ∉ s.emitted) :
    (gestureStep w h tr s inp).timer ≠ some true ∧
    GEvent.longPress ∉ (gestureStep w h tr s inp).emitted := by
  obtain ⟨ht, he⟩ := hs
  cases inp with
  | dragStart =>
    simp only [gestureStep]
    by_cases hd : s.dragging = true
    · rw [if_pos hd]
      exact ⟨ht, he⟩
    · rw [if_neg hd]
      refine ⟨?_, he⟩
      intro heq
      have h2 : some s.dragging = some true := heq
      have h3 : s.dragging = true := by injection h2
      exact hd h3
  | dragMove dx dy =>
    simp only [gestureStep]
    by_cases hd : (!s.dragging) = true
    · rw [if_pos hd]
      exact ⟨ht, he⟩
    · rw [if_neg hd]
      by_cases hm : ratAbs dx > 20 ∨ ratAbs dy > 20
      · rw [if_pos hm]
        exact ⟨by intro heq; simp at heq, he⟩
      · rw [if_neg hm]
        exact ⟨ht, he⟩
  | timerFire =>
    simp only [gestureStep]
    rcases hcap : s.timer with _ | captured
    · exact ⟨ht, he⟩
    · have hc : captured = false := by
        rcases captured with _ | _
        · rfl
        · exact absurd hcap ht
      subst hc
      refine ⟨by intro heq; simp at heq, ?_⟩
      simpa using he
  | dragEnd dx dy =>
    simp only [gestureStep]
    by_cases hd : (!s.dragging) = true
    · rw [if_pos hd]
      exact ⟨ht, he⟩
    · rw [if_neg hd]
      rcases getSwipeDirection w h dx dy with _ | d
      · exact ⟨by intro heq; simp at heq, he⟩
      · cases tr
        · refine ⟨by intro heq; simp at heq, ?_⟩
          intro hmem
          have hmem2 : GEvent.longPress ∈ s.emitted ++ [GEvent.swipe d] := hmem
          rcases List.mem_append.mp hmem2 with hmem3 | hmem3
          · exact he hmem3
          · simp at hmem3
        · exact ⟨by intro heq; simp at heq, he⟩

/-- C7: the `setTimeout` callback scheduled in `handleDragStart` closes
over the `isDragging` value of the render that created the handler,
which is still `false` when the drag begins; `setIsDragging(true)`
cannot change the captured binding, so the callback's
`if (isDragging)` test always fails and no LongPress is ever emitted,
on any input sequence — in particular on the failing input of a press
held still past 500 ms. -/
theorem C7_longPress_never_emitted (w h : Rat) (tr : Bool)
    (inputs : List GInput) :
    GEvent.longPress ∉ (runGesture w h tr inputs).emitted := by
  suffices H : ∀ s : GestureState, s.timer ≠ some true →
      GEvent.longPress ∉ s.emitted →
      (inputs.foldl (gestureStep w h tr) s).timer ≠ some true ∧
      GEvent.longPress ∉ (inputs.foldl (gestureStep w h tr) s).emitted by
    exact (H gestureInit (fun heq => Option.noConfusion heq)
      (fun hmem => by simp [gestureInit] at hmem)).2
  induction inputs with
  | nil =>
    intro s h1 h2
    exact ⟨h1, h2⟩
  | cons a l ih =>
    intro s h1 h2
    have hstep := gestureStep_inv w h tr s a ⟨h1, h2⟩
    exact ih _ hstep.1 hstep.2
